import Mathlib

/-!
Shallow embedding of the core of the NAB appointment-booking backend:
slot-conflict checks in `createBookingOrder`, payment verification in
`verifyBookingPayment`, the year-scoped reference-id counter
(`getNextCounter` / `generateReferenceId` / `resetCounter`), consultant
availability (`isCAAvailable`), the in-process slot lock (`lockSlot`),
admin status updates (`updateStatus`), and the reminder scheduler's
per-booking check-and-send step.  External I/O (Firestore, Razorpay,
Brevo, Google Meet) is modelled by explicit state passing: document
reads become lookups in explicit arguments, document writes become
returned updated values.
-/

namespace NAB

/-! ### Time parsing (shared "HH:MM" arithmetic)

Every overlap check in the source parses a time slot with
`timeSlot.split(':').map(Number)` and works in minutes since midnight.
-/

/-- Split a character list at every occurrence of the separator
(`String.prototype.split` on the character level). -/
def splitOnChar (sep : Char) : List Char → List (List Char)
  | [] => [[]]
  | c :: rest =>
    let r := splitOnChar sep rest
    if c = sep then [] :: r
    else
      match r with
      | [] => [[c]]
      | h :: t => (c :: h) :: t

/-- `Number(...)` on one split component: the value of a nonempty digit
string, `0` for the empty string (as in JS), and `0` in place of `NaN`
for malformed input (every caller feeds well-formed "HH:MM" slots). -/
def parseNumPart (l : List Char) : Nat :=
  if l.all (·.isDigit) then
    l.foldl (fun acc c => acc * 10 + (c.toNat - 48)) 0
  else 0

/-- `const [h, m] = t.split(':').map(Number); h * 60 + m` -/
def timeToMinutes (t : String) : Nat :=
  match splitOnChar ':' t.toList with
  | [h, m] => parseNumPart h * 60 + parseNumPart m
  | _ => 0

/-! ### Consultant availability (`caAvailability.service.js`) -/

/-- One blackout interval of a consultant (`unavailable_slots` entry). -/
structure UnavailableSlot where
  date : String
  start_time : String
  end_time : String
  deriving DecidableEq, Repr

/-- A consultant document (fields used by the availability check). -/
structure CA where
  unavailable_slots : List UnavailableSlot
  deriving DecidableEq, Repr

/-- JS falsiness test for an optional string argument (`!caId`):
`undefined`, `null` and the empty string are falsy. -/
def strFalsy : Option String → Bool
  | none => true
  | some s => s = ""

/-- `isCAAvailable(businessId, caId, date, timeSlot, duration)`.
The Firestore lookup `businessRef.collection('CA').doc(caId).get()` is
modelled by the `findCA` argument.  Mirrors the source: falsy `caId`
returns `true` before any read; a missing consultant document returns
`false`; an empty `unavailable_slots` list returns `true`; otherwise the
requested interval is tested against every blackout entry on the same
date with the half-open overlap test
`apptStart < slotEnd && apptEnd > slotStart`. -/
def isCAAvailable (findCA : String → Option CA) (caId : Option String)
    (date timeSlot : String) (duration : Nat) : Bool :=
  match caId with
  | none => true
  | some cid =>
    if cid = "" then true
    else
      match findCA cid with
      | none => false
      | some caData =>
        let unavailableSlots := caData.unavailable_slots
        if unavailableSlots.isEmpty then true
        else
          let appointmentStartMinutes := timeToMinutes timeSlot
          let appointmentEndMinutes := appointmentStartMinutes + duration
          !(unavailableSlots.any fun slot =>
            slot.date = date &&
            appointmentStartMinutes < timeToMinutes slot.end_time &&
            appointmentEndMinutes > timeToMinutes slot.start_time)

/-! ### Reference-id issuance (`referenceIdHelper.js`) -/

/-- The `system/counters` document: `{year, counter}`. -/
structure CounterDoc where
  year : Int
  counter : Nat
  deriving DecidableEq, Repr

/-- The atomic transaction body of `getNextCounter`: read the counter
document, treat it as 0 when absent or from a different year, increment,
write back `{year, counter: newCounter}`.  Returns the issued counter
and the document written back. -/
def getNextCounter (counterDoc : Option CounterDoc) (year : Int) :
    Nat × CounterDoc :=
  let currentCounter :=
    match counterDoc with
    | none => 0
    | some counterData =>
      if counterData.year = year then counterData.counter else 0
  let newCounter := currentCounter + 1
  (newCounter, { year := year, counter := newCounter })

/-- `String(counter).padStart(4, '0')`. -/
def padStart4 (s : String) : String :=
  if 4 ≤ s.length then s
  else String.mk (List.replicate (4 - s.length) '0') ++ s

/-- `generateReferenceId`: issue the next counter for the current year
and format it as `NAB_<year>_<counter padded to 4 digits>`.  Returns the
formatted id and the counter document written back. -/
def generateReferenceId (counterDoc : Option CounterDoc) (year : Int) :
    String × CounterDoc :=
  let next := getNextCounter counterDoc year
  ("NAB_" ++ toString year ++ "_" ++ padStart4 (toString next.1), next.2)

/-- `issueSeq doc year n`: the list of counters produced by `n`
sequential `issue` calls starting from counter document state `doc`,
all within calendar year `year`. -/
def issueSeq (counterDoc : Option CounterDoc) (year : Int) : Nat → List Nat
  | 0 => []
  | n + 1 =>
    let next := getNextCounter counterDoc year
    next.1 :: issueSeq (some next.2) year n

/-! ### Admin counter reset (`admin.controller.js`, `resetCounter`)

`getNextCounter` reads and writes the document at
`businesses/{id}/system/counters`, while `resetCounter` writes the
document at `businesses/{id}/system/counters/reference_id/counter` — a
document inside a subcollection of the former.  These are two distinct
Firestore documents, modelled as two separate fields. -/

/-- The two counter-related documents touched by the code. -/
structure CounterStore where
  /-- `businesses/{id}/system/counters` — read and written by
  `getNextCounter`. -/
  countersDoc : Option CounterDoc
  /-- `businesses/{id}/system/counters/reference_id/counter` — written by
  `resetCounter`. -/
  resetSubDoc : Option CounterDoc
  deriving DecidableEq, Repr

/-- `resetCounter`: `counterRef.set({year: currentYear, counter: 0})` on
the `system/counters/reference_id/counter` document. -/
def resetCounter (store : CounterStore) (year : Int) : CounterStore :=
  { store with resetSubDoc := some { year := year, counter := 0 } }

/-! ### Bookings (`booking.controller.js`) -/

/-- An appointment document (the fields the core logic reads). -/
structure Appointment where
  customer_name : String
  customer_email : String
  customer_phone : String
  assigned_ca : String
  date : String
  time_slot : String
  duration : Nat
  amount : Nat
  payment_status : String
  status : String
  deriving DecidableEq, Repr

/-- One entry of `settings.slot_durations`. -/
structure SlotConfig where
  duration : Nat
  price : Nat
  deriving DecidableEq, Repr

/-- The `system/settings` fields read by `createBookingOrder`. -/
structure Settings where
  slot_durations : List SlotConfig
  deriving DecidableEq, Repr

/-- The business documents read and written by the booking flow:
appointments keyed by reference id, and the issuer's counter document. -/
structure BookingStore where
  appointments : List (String × Appointment)
  countersDoc : Option CounterDoc
  deriving DecidableEq, Repr

/-- A booking request body (`req.body` of `createBookingOrder`). -/
structure CreateRequest where
  customer_name : String
  customer_email : String
  customer_phone : String
  consult_note : String
  ca_id : Option String
  date : String
  time_slot : String
  duration : Nat
  deriving DecidableEq, Repr

/-- Outcome of `createBookingOrder`. -/
inductive CreateResult where
  /-- 400, "Missing required fields". -/
  | missingFields
  /-- 400, "Selected CA is not available at this time...". -/
  | caNotAvailable
  /-- 400, "This time slot is no longer available" (`SlotUnavailable`). -/
  | slotUnavailable
  /-- 400, "Invalid duration selected". -/
  | invalidDuration
  /-- 200 with the issued reference id. -/
  | ok (referenceId : String)
  deriving DecidableEq, Repr

/-- The `isSameCA` test inside the overlap re-scan of
`createBookingOrder`: `!ca_id || !data.assigned_ca || data.assigned_ca
=== ca_id`. -/
def isSameCA (ca_id : Option String) (assigned : String) : Bool :=
  strFalsy ca_id || assigned = "" || assigned = (ca_id.getD "")

/-- The overlap re-scan of `createBookingOrder` against appointments on
the same date with `payment_status == "completed"` (the Firestore query
filters) and `status` in `{pending, confirmed}`, using the half-open
interval test and the `data.duration || 30` fallback.  Returns `true`
when some existing appointment blocks the requested slot. -/
def slotConflicts (appointments : List (String × Appointment))
    (ca_id : Option String) (date timeSlot : String) (duration : Nat) :
    Bool :=
  let slotStartMinutes := timeToMinutes timeSlot
  let slotEndMinutes := slotStartMinutes + duration
  appointments.any fun kv =>
    let data := kv.2
    data.date = date && data.payment_status = "completed" &&
    isSameCA ca_id data.assigned_ca &&
    (data.status = "pending" || data.status = "confirmed") &&
    (let existingStart := timeToMinutes data.time_slot
     let existingEnd :=
       existingStart + (if data.duration = 0 then 30 else data.duration)
     slotStartMinutes < existingEnd && slotEndMinutes > existingStart)

/-- The `appointmentData` document written by `createBookingOrder`:
the request's fields plus the priced amount, with
`payment_status: "pending"` and `status: "draft"`. -/
def draftOf (r : CreateRequest) (price : Nat) : Appointment :=
  { customer_name := r.customer_name
    customer_email := r.customer_email
    customer_phone := r.customer_phone
    assigned_ca := r.ca_id.getD ""
    date := r.date
    time_slot := r.time_slot
    duration := r.duration
    amount := price
    payment_status := "pending"
    status := "draft" }

/-- `createBookingOrder`: field validation, consultant availability
check (only when `ca_id` is truthy), overlap re-scan against existing
paid appointments, duration pricing lookup, reference-id issuance, and
the write of the new appointment with `payment_status: "pending",
status: "draft"` under the reference id.  The Razorpay order creation is
external and cannot affect the store.  Returns the outcome and the
updated store; every failure path performs no writes. -/
def createBookingOrder (findCA : String → Option CA)
    (settings : Settings) (r : CreateRequest) (store : BookingStore)
    (year : Int) : CreateResult × BookingStore :=
  if r.customer_name = "" || r.customer_email = "" ||
      r.customer_phone = "" || r.date = "" || r.time_slot = "" ||
      r.duration = 0 then
    (CreateResult.missingFields, store)
  else if !strFalsy r.ca_id &&
      !(isCAAvailable findCA r.ca_id r.date r.time_slot r.duration) then
    (CreateResult.caNotAvailable, store)
  else if slotConflicts store.appointments r.ca_id r.date r.time_slot
      r.duration then
    (CreateResult.slotUnavailable, store)
  else
    match settings.slot_durations.find? (fun s => s.duration = r.duration) with
    | none => (CreateResult.invalidDuration, store)
    | some slotConfig =>
      let issued := generateReferenceId store.countersDoc year
      let referenceId := issued.1
      (CreateResult.ok referenceId,
       { appointments :=
           store.appointments ++ [(referenceId, draftOf r slotConfig.price)]
         countersDoc := some issued.2 })

/-! ### Payment verification (`verifyBookingPayment`) -/

/-- Outcome of `verifyBookingPayment`. -/
inductive VerifyResult where
  /-- 400, "Invalid payment signature". -/
  | invalidSignature
  /-- 404, "Appointment not found". -/
  | notFound
  /-- 200, with the updated appointment document. -/
  | ok (appointment : Appointment)
  deriving DecidableEq, Repr

/-- The appointment update performed by `verifyBookingPayment`:
`{payment_status: "completed", status: "pending"}`. -/
def markPaid (a : Appointment) : Appointment :=
  { a with payment_status := "completed", status := "pending" }

/-- `verifyBookingPayment` on a single appointment document: after the
external signature check (`sigValid`), a missing document is a 404;
otherwise the appointment is updated to `payment_status: "completed",
status: "pending"` unconditionally.  The Meet-link and email side
effects touch no core booking field. -/
def verifyBookingPayment (sigValid : Bool)
    (appointment : Option Appointment) : VerifyResult :=
  if !sigValid then VerifyResult.invalidSignature
  else
    match appointment with
    | none => VerifyResult.notFound
    | some a => VerifyResult.ok (markPaid a)

/-- `verifyBookingPayment` at the store level: looks up
`appointment_id` among the appointment documents and applies the
update in place. -/
def verifyBookingPaymentStore (sigValid : Bool) (store : BookingStore)
    (appointment_id : String) : VerifyResult × BookingStore :=
  match verifyBookingPayment sigValid
      ((store.appointments.find? (fun kv => kv.1 = appointment_id)).map
        Prod.snd) with
  | VerifyResult.ok a =>
    (VerifyResult.ok a,
     { store with
        appointments := store.appointments.map fun kv =>
          if kv.1 = appointment_id then (kv.1, a) else kv })
  | res => (res, store)

/-! ### Admin status update (`admin.controller.js`, `updateStatus`) -/

/-- Outcome of the admin `updateStatus` handler. -/
inductive UpdateStatusResult where
  /-- 400, "Status is required". -/
  | missingStatus
  /-- 400, "Invalid status" (not in the allow-list). -/
  | invalidStatus
  /-- 200, "Status updated successfully". -/
  | ok
  deriving DecidableEq, Repr

/-- `const validStatuses = ['pending', 'confirmed', 'completed',
'cancelled']`. -/
def validStatuses : List String :=
  ["pending", "confirmed", "completed", "cancelled"]

/-- `updateStatus`: rejects a falsy or unlisted status string, then
calls `updateAppointment(businessId, appointmentId, { status })`, which
writes the `status` field with no check of the appointment's current
state.  Returns the outcome and the updated appointment document. -/
def updateStatus (appointment : Appointment) (status : String) :
    UpdateStatusResult × Appointment :=
  if status = "" then (UpdateStatusResult.missingStatus, appointment)
  else if !(validStatuses.contains status) then
    (UpdateStatusResult.invalidStatus, appointment)
  else (UpdateStatusResult.ok, { appointment with status := status })

/-! ### Slot lock (`slotLock.js`) -/

/-- One entry of the in-memory `lockedSlots` map. -/
structure LockEntry where
  lockedAt : Nat
  expiresAt : Nat
  deriving DecidableEq, Repr

/-- The in-memory `lockedSlots` map, keyed by `date + "__" + timeSlot`. -/
def LockMap : Type := String → Option LockEntry

/-- `lockSlot(date, timeSlot, lockDuration)` at instant `now`
(`Date.now()`): returns `false` if an unexpired entry exists for the
key; otherwise (absent or expired entry) stores
`{lockedAt: now, expiresAt: now + lockDuration}` and returns `true`. -/
def lockSlot (locks : LockMap) (date timeSlot : String) (now : Nat)
    (lockDuration : Nat) : Bool × LockMap :=
  let key := date ++ "__" ++ timeSlot
  match locks key with
  | some lockData =>
    if now < lockData.expiresAt then (false, locks)
    else
      (true, fun k =>
        if k = key then some ⟨now, now + lockDuration⟩ else locks k)
  | none =>
    (true, fun k =>
      if k = key then some ⟨now, now + lockDuration⟩ else locks k)

/-- The results of a sequence of `lockSlot` calls on the same key at the
given instants, threading the map through. -/
def lockSlotSeq (locks : LockMap) (date timeSlot : String)
    (lockDuration : Nat) : List Nat → List Bool × LockMap
  | [] => ([], locks)
  | now :: rest =>
    let step := lockSlot locks date timeSlot now lockDuration
    let tail := lockSlotSeq step.2 date timeSlot lockDuration rest
    (step.1 :: tail.1, tail.2)

/-! ### Reminder scheduler (`reminderScheduler.service.js`)

`checkAndSendForWindow` computes `target = now + offset` and a
symmetric window around it, scans appointments with
`payment_status == "completed"` and `status` in `{pending, confirmed}`,
and for each appointment whose start instant falls inside the window
and whose offset-specific flag (`reminder_12hr_sent`,
`reminder_1hr_sent`, `reminder_1min_sent`) is unset calls
`sendReminderEmail`, which sets the flag together with its timestamp in
one update only when the dispatch succeeded.  The per-booking step is
embedded below; the appointment's absolute start instant
(`parseAppointmentTime`) is passed in as a number of milliseconds, and
the external Brevo call's outcome as `dispatchOk`. -/

/-- The reminder-relevant fields of one appointment document, for one
fixed offset: its flag (`booking[reminderKey]`) and the flag's
timestamp. -/
structure ReminderBooking where
  payment_status : String
  status : String
  /-- `booking[reminderKey]` for the offset under consideration; a field
  never written reads as `undefined`, i.e. falsy, i.e. `false`. -/
  reminderSent : Bool
  /-- `booking[reminderKey + "_at"]`. -/
  reminderSentAt : Option Nat
  deriving DecidableEq, Repr

/-- `sendReminderEmail` restricted to its effect on the booking
document: on a successful dispatch it writes the flag and its timestamp
in one `update`, returning `true`; on a failed dispatch it writes
nothing and returns `false`. -/
def sendReminderEmail (b : ReminderBooking) (dispatchOk : Bool)
    (now : Nat) : Bool × ReminderBooking :=
  if dispatchOk then
    (true, { b with reminderSent := true, reminderSentAt := some now })
  else (false, b)

/-- The per-booking body of `checkAndSendForWindow` for one offset:
the query filters (`payment_status == "completed"`,
`status in ["pending", "confirmed"]`), the window test
`windowStart <= appointmentTime <= windowEnd` with
`target = now + offsetMillis` and `window = target ± halfWindow`, the
flag check, and the dispatch via `sendReminderEmail`.  Returns whether
a reminder was sent and the resulting booking document. -/
def checkAndSendForBooking (now : Nat) (offsetMillis halfWindow : Nat)
    (appointmentTime : Nat) (b : ReminderBooking) (dispatchOk : Bool) :
    Bool × ReminderBooking :=
  if b.payment_status = "completed" &&
      (b.status = "pending" || b.status = "confirmed") then
    let target := now + offsetMillis
    let windowStart := target - halfWindow
    let windowEnd := target + halfWindow
    if windowStart ≤ appointmentTime && appointmentTime ≤ windowEnd then
      if !b.reminderSent then sendReminderEmail b dispatchOk now
      else (false, b)
    else (false, b)
  else (false, b)

/-! ### Concrete documents used in the scenario theorems -/

/-- A consultant with the single blackout interval of the half-open
boundary test. -/
def caMarchTen : CA :=
  { unavailable_slots :=
      [{ date := "2025-03-10", start_time := "10:00", end_time := "11:00" }] }

/-- A consultant collection holding only `caMarchTen` under id `ca1`. -/
def findCAMarchTen : String → Option CA :=
  fun cid => if cid = "ca1" then some caMarchTen else none

/-- A consultant collection with no documents. -/
def findCANone : String → Option CA := fun _ => none

/-- A valid booking request with no consultant for the 10:00 slot. -/
def sampleRequest : CreateRequest :=
  { customer_name := "Asha"
    customer_email := "asha@example.com"
    customer_phone := "9999999999"
    consult_note := ""
    ca_id := none
    date := "2025-03-10"
    time_slot := "10:00"
    duration := 30 }

/-- Settings pricing the 30-minute slot. -/
def sampleSettings : Settings := { slot_durations := [{ duration := 30, price := 500 }] }

/-- An empty business store. -/
def emptyStore : BookingStore := { appointments := [], countersDoc := none }

/-- A paid, pending appointment occupying the 10:00 slot. -/
def occupyingAppt : Appointment :=
  { customer_name := "Ravi"
    customer_email := "ravi@example.com"
    customer_phone := "8888888888"
    assigned_ca := ""
    date := "2025-03-10"
    time_slot := "10:00"
    duration := 30
    amount := 500
    payment_status := "completed"
    status := "pending" }

/-- A draft appointment for the same 10:00 slot, payment still pending. -/
def draftSameSlot : Appointment :=
  { occupyingAppt with
      customer_name := "Asha"
      customer_email := "asha@example.com"
      customer_phone := "9999999999"
      payment_status := "pending"
      status := "draft" }

/-! ## Claim theorems -/

/-- Claim C6: consultant availability uses half-open intervals — with a
blackout interval 10:00–11:00 on 2025-03-10, a 30-minute appointment at
10:30 is unavailable and one at 11:00 (starting exactly when the
blackout ends) is available. -/
theorem isCAAvailable_half_open_boundary :
    isCAAvailable findCAMarchTen (some "ca1") "2025-03-10" "10:30" 30 = false ∧
    isCAAvailable findCAMarchTen (some "ca1") "2025-03-10" "11:00" 30 = true := by
  constructor <;> rfl

/-- Claim C10: a falsy consultant id (absent or empty) makes
`isCAAvailable` return `true` for every store, date, slot and duration,
and `createBookingOrder` with a falsy `ca_id` is independent of the
consultant collection — no consultant-availability check happens at
all. -/
theorem isCAAvailable_falsy_skips_check
    (findCA findCA2 : String → Option CA) (date timeSlot : String)
    (duration : Nat) (settings : Settings) (r : CreateRequest)
    (store : BookingStore) (y : Int) :
    isCAAvailable findCA none date timeSlot duration = true ∧
    isCAAvailable findCA (some "") date timeSlot duration = true ∧
    createBookingOrder findCA settings { r with ca_id := none } store y =
      createBookingOrder findCA2 settings { r with ca_id := none } store y ∧
    createBookingOrder findCA settings { r with ca_id := some "" } store y =
      createBookingOrder findCA2 settings { r with ca_id := some "" } store y := by
  refine ⟨rfl, rfl, ?_, ?_⟩ <;> simp [createBookingOrder, strFalsy]

/-- Claim C3 (failing input): `resetCounter` writes
`{year, counter: 0}` to the `system/counters/reference_id/counter`
document, but `getNextCounter` reads the distinct `system/counters`
document, so with a stored counter of 42 the next issue after a reset
returns 43, not 1. -/
theorem resetCounter_does_not_reset_issue :
    (resetCounter { countersDoc := some { year := 2025, counter := 42 },
                    resetSubDoc := none } 2025).resetSubDoc =
      some { year := 2025, counter := 0 } ∧
    (resetCounter { countersDoc := some { year := 2025, counter := 42 },
                    resetSubDoc := none } 2025).countersDoc =
      some { year := 2025, counter := 42 } ∧
    (getNextCounter
      (resetCounter { countersDoc := some { year := 2025, counter := 42 },
                      resetSubDoc := none } 2025).countersDoc 2025).1 = 43 := by
  refine ⟨rfl, rfl, ?_⟩ ; rfl

/-- Claim C9: `verifyBookingPayment` with a valid signature sets
`payment_status = "completed"` and `status = "pending"` on every
existing appointment unconditionally — an appointment already cancelled
or completed is moved back to `pending`. -/
theorem verifyBookingPayment_ignores_current_status (a : Appointment) :
    verifyBookingPayment true (some { a with status := "cancelled" }) =
      VerifyResult.ok
        { a with payment_status := "completed", status := "pending" } ∧
    verifyBookingPayment true (some { a with status := "completed" }) =
      VerifyResult.ok
        { a with payment_status := "completed", status := "pending" } ∧
    verifyBookingPayment true (some a) =
      VerifyResult.ok
        { a with payment_status := "completed", status := "pending" } := by
  refine ⟨rfl, rfl, rfl⟩

/-- Claim C2 (counterexample): the original slot of a draft booking is
occupied by a competing paid booking — the claim predicts
`verifyBookingPayment` fails with `SlotNoLongerAvailable` and leaves
`payment_status = "pending"`, but the code performs no re-verification
and sets `payment_status = "completed"` anyway. -/
theorem verifyBookingPayment_no_reverification_counterexample :
    slotConflicts [("NAB_2025_0001", occupyingAppt)] (some "")
      draftSameSlot.date draftSameSlot.time_slot draftSameSlot.duration
      = true ∧
    (verifyBookingPaymentStore true
      { appointments :=
          [("NAB_2025_0001", occupyingAppt), ("NAB_2025_0002", draftSameSlot)]
        countersDoc := none } "NAB_2025_0002").1 =
      VerifyResult.ok (markPaid draftSameSlot) ∧
    (markPaid draftSameSlot).payment_status = "completed" := by
  refine ⟨by decide, rfl, rfl⟩

/-- Claim C2 (amended): `verifyBookingPayment` is idempotent, but it
performs no slot re-verification — with a valid signature it
unconditionally sets `payment_status = "completed"` and
`status = "pending"` on any existing appointment, and a repeated call
returns the same document. -/
theorem verifyBookingPayment_idempotent_no_reverify (a : Appointment) :
    verifyBookingPayment true (some a) = VerifyResult.ok (markPaid a) ∧
    (markPaid a).payment_status = "completed" ∧
    (markPaid a).status = "pending" ∧
    verifyBookingPayment true (some (markPaid a)) =
      VerifyResult.ok (markPaid a) := by
  refine ⟨rfl, rfl, rfl, rfl⟩

/-- Claim C4 (counterexample): `updateStatus` on an appointment with
terminal status `"completed"` and new status `"cancelled"` succeeds and
overwrites the status — the claim predicts an `InvalidTransition`
failure that leaves the status unchanged. -/
theorem updateStatus_from_completed_succeeds :
    updateStatus { occupyingAppt with status := "completed" } "cancelled" =
      (UpdateStatusResult.ok,
        { occupyingAppt with status := "cancelled" }) ∧
    updateStatus { occupyingAppt with status := "cancelled" } "pending" =
      (UpdateStatusResult.ok,
        { occupyingAppt with status := "pending" }) := by
  refine ⟨rfl, rfl⟩

/-- Claim C4 (amended): `updateStatus` validates only that the new
status is one of `pending`, `confirmed`, `completed`, `cancelled`; any
listed status is applied from any current state (including from the
terminal states `completed` and `cancelled`), and in particular
`pending → confirmed` always succeeds. -/
theorem updateStatus_no_transition_table (a : Appointment) (s : String)
    (h : s ∈ validStatuses) :
    updateStatus a s = (UpdateStatusResult.ok, { a with status := s }) := by
  simp only [validStatuses, List.mem_cons, List.not_mem_nil, or_false] at h
  rcases h with h | h | h | h <;> subst h <;> rfl

/-- Witness for `updateStatus_no_transition_table`: a pending booking
moved to confirmed. -/
theorem updateStatus_no_transition_table_witness :
    updateStatus { occupyingAppt with status := "pending" } "confirmed" =
      (UpdateStatusResult.ok, { occupyingAppt with status := "confirmed" }) :=
  updateStatus_no_transition_table
    { occupyingAppt with status := "pending" } "confirmed" (by simp [validStatuses])

/-- Sequential issues starting from a counter document already at `c`
in the current year yield the counters `c+1, c+2, ...`. -/
theorem issueSeq_same_year (y : Int) (c n : Nat) :
    issueSeq (some { year := y, counter := c }) y n = List.range' (c + 1) n := by
  induction n generalizing c with
  | zero => rfl
  | succ n ih =>
    simp only [issueSeq, getNextCounter, if_pos rfl, List.range'_succ]
    exact congrArg (List.cons (c + 1)) (ih (c + 1))

/-- Claim C5: `issue` called `N` times sequentially within one calendar
year, starting from an absent counter document or one stored under a
different year, returns the strictly increasing gap-free counters
`1..N`; a single issue against a stale-year document returns counter 1
under the new year, formatted `0001`. -/
theorem referenceId_sequence (counterDoc : Option CounterDoc) (y : Int)
    (n : Nat) (h : ∀ d ∈ counterDoc, d.year ≠ y) :
    issueSeq counterDoc y n = List.range' 1 n ∧
    (issueSeq counterDoc y n).Pairwise (· < ·) ∧
    (getNextCounter counterDoc y).1 = 1 ∧
    (getNextCounter counterDoc y).2 = { year := y, counter := 1 } ∧
    (generateReferenceId counterDoc y).1 =
      "NAB_" ++ toString y ++ "_0001" := by
  have hfirst : getNextCounter counterDoc y = (1, { year := y, counter := 1 }) := by
    cases counterDoc with
    | none => rfl
    | some d =>
      have hd : d.year ≠ y := h d rfl
      simp [getNextCounter, hd]
  have hseq : issueSeq counterDoc y n = List.range' 1 n := by
    cases n with
    | zero => rfl
    | succ m =>
      show (getNextCounter counterDoc y).1 ::
          issueSeq (some (getNextCounter counterDoc y).2) y m = _
      rw [hfirst, List.range'_succ]
      exact congrArg (List.cons 1) (issueSeq_same_year y 1 m)
  refine ⟨hseq, ?_, by rw [hfirst], by rw [hfirst], ?_⟩
  · rw [hseq, List.range'_eq_map_range]
    exact (List.pairwise_lt_range n).map _ (by omega)
  · have h1 : (getNextCounter counterDoc y).1 = 1 := by rw [hfirst]
    show "NAB_" ++ toString y ++ "_" ++
        padStart4 (toString (getNextCounter counterDoc y).1) = _
    rw [h1, String.append_assoc]
    exact congrArg (fun t => "NAB_" ++ toString y ++ t) (by rfl)

/-- Witness for `referenceId_sequence`: three issues after a simulated
year rollover from a counter stored under 2025 yield `[1, 2, 3]`, and
the first formatted id for 2026 is `NAB_2026_0001`. -/
theorem referenceId_sequence_witness :
    issueSeq (some { year := 2025, counter := 42 }) 2026 3 = List.range' 1 3 ∧
    (generateReferenceId (some { year := 2025, counter := 42 }) 2026).1 =
      "NAB_" ++ toString (2026 : Int) ++ "_0001" := by
  have h := referenceId_sequence (some { year := 2025, counter := 42 }) 2026 3
    (by intro d hd; simp only [Option.mem_def, Option.some_inj] at hd
        subst hd; decide)
  exact ⟨h.1, h.2.2.2.2⟩

/-- While an unexpired entry holds the key, every `lockSlot` call
returns `false` and leaves the map untouched. -/
theorem lockSlotSeq_locked (locks : LockMap) (date timeSlot : String)
    (ttl : Nat) (e : LockEntry) (ts : List Nat)
    (he : locks (date ++ "__" ++ timeSlot) = some e)
    (hts : ∀ t ∈ ts, t < e.expiresAt) :
    lockSlotSeq locks date timeSlot ttl ts = (ts.map fun _ => false, locks) := by
  induction ts with
  | nil => rfl
  | cons t ts ih =>
    have hstep : lockSlot locks date timeSlot t ttl = (false, locks) := by
      simp [lockSlot, he, hts t (List.mem_cons_self t ts)]
    show (let step := lockSlot locks date timeSlot t ttl
          let tail := lockSlotSeq step.2 date timeSlot ttl ts
          (step.1 :: tail.1, tail.2)) = _
    rw [hstep]
    have htail := ih (fun x hx => hts x (List.mem_cons_of_mem t hx))
    simp only [htail, List.map_cons]

/-- Claim C7: starting from a key with no live entry, the first
`lockSlot` call succeeds, every further call within the TTL of that
first call fails, and once the entry's expiry instant is reached a new
call succeeds again and silently replaces the entry. -/
theorem lockSlot_mutual_exclusion (locks : LockMap)
    (date timeSlot : String) (ttl t0 : Nat) (rest : List Nat)
    (h0 : ∀ e, locks (date ++ "__" ++ timeSlot) = some e → e.expiresAt ≤ t0)
    (hrest : ∀ t ∈ rest, t < t0 + ttl) :
    (lockSlotSeq locks date timeSlot ttl (t0 :: rest)).1 =
      true :: (rest.map fun _ => false) ∧
    ∀ now2, t0 + ttl ≤ now2 →
      (lockSlot (lockSlotSeq locks date timeSlot ttl (t0 :: rest)).2
          date timeSlot now2 ttl).1 = true ∧
      (lockSlot (lockSlotSeq locks date timeSlot ttl (t0 :: rest)).2
          date timeSlot now2 ttl).2 (date ++ "__" ++ timeSlot) =
        some { lockedAt := now2, expiresAt := now2 + ttl } := by
  set key := date ++ "__" ++ timeSlot with hkey
  set locks1 : LockMap :=
    (fun k => if k = key then
        some { lockedAt := t0, expiresAt := t0 + ttl } else locks k)
    with hlocks1
  have hstep : lockSlot locks date timeSlot t0 ttl = (true, locks1) := by
    rcases hl : locks key with _ | e
    · simp [lockSlot, ← hkey, hl, hlocks1]
    · have hle := h0 e hl
      simp [lockSlot, ← hkey, hl, Nat.not_lt.mpr hle, hlocks1]
  have h1key : locks1 key =
      some { lockedAt := t0, expiresAt := t0 + ttl } := by
    simp [hlocks1]
  have hseq : lockSlotSeq locks date timeSlot ttl (t0 :: rest) =
      (true :: (rest.map fun _ => false), locks1) := by
    show (let step := lockSlot locks date timeSlot t0 ttl
          let tail := lockSlotSeq step.2 date timeSlot ttl rest
          (step.1 :: tail.1, tail.2)) = _
    rw [hstep]
    have := lockSlotSeq_locked locks1 date timeSlot ttl
      { lockedAt := t0, expiresAt := t0 + ttl } rest h1key hrest
    simp only [this]
  refine ⟨by rw [hseq], fun now2 h2 => ?_⟩
  rw [hseq]
  show (lockSlot locks1 date timeSlot now2 ttl).1 = true ∧
    (lockSlot locks1 date timeSlot now2 ttl).2 key = _
  have hres : lockSlot locks1 date timeSlot now2 ttl =
      (true, fun k => if k = key then
          some { lockedAt := now2, expiresAt := now2 + ttl } else locks1 k) := by
    simp [lockSlot, ← hkey, h1key, Nat.not_lt.mpr h2]
  rw [hres]
  exact ⟨rfl, by simp⟩

/-- Witness for `lockSlot_mutual_exclusion`: on an empty map, acquire
at 0 succeeds, acquires at 1000 and 299999 fail (TTL 300000 ms), and an
acquire at 300000 succeeds again. -/
theorem lockSlot_mutual_exclusion_witness :
    (lockSlotSeq (fun _ => none) "2025-03-10" "10:00" 300000
        [0, 1000, 299999]).1 = [true, false, false] ∧
    (lockSlot (lockSlotSeq (fun _ => none) "2025-03-10" "10:00" 300000
        [0, 1000, 299999]).2 "2025-03-10" "10:00" 300000 300000).1 = true := by
  have h := lockSlot_mutual_exclusion (fun _ => none) "2025-03-10" "10:00"
    300000 0 [1000, 299999]
    (fun e he => Option.noConfusion he) (by decide)
  exact ⟨h.1, (h.2 300000 (by decide)).1⟩

/-- A booking whose offset flag is already set is skipped by the
scheduler tick, whatever the window, instant and dispatch outcome. -/
theorem checkAndSend_flag_already_set (n o hw a : Nat) (d : Bool)
    (b : ReminderBooking) (h : b.reminderSent = true) :
    checkAndSendForBooking n o hw a b d = (false, b) := by
  unfold checkAndSendForBooking sendReminderEmail
  dsimp only
  split_ifs <;> simp_all

/-- A failed dispatch writes nothing: the tick reports no send and the
booking document is unchanged. -/
theorem checkAndSend_failed_dispatch (n o hw a : Nat)
    (b : ReminderBooking) :
    checkAndSendForBooking n o hw a b false = (false, b) := by
  unfold checkAndSendForBooking sendReminderEmail
  dsimp only
  split_ifs <;> simp_all

/-- A tick that reports a send implies the flag was unset and the
dispatch succeeded, and it sets the flag together with its timestamp in
the one returned update. -/
theorem checkAndSend_sent (n o hw a : Nat) (b : ReminderBooking)
    (d : Bool)
    (h : (checkAndSendForBooking n o hw a b d).1 = true) :
    b.reminderSent = false ∧ d = true ∧
    (checkAndSendForBooking n o hw a b d).2 =
      { b with reminderSent := true, reminderSentAt := some n } := by
  unfold checkAndSendForBooking sendReminderEmail at h ⊢
  dsimp only at h ⊢
  split_ifs at h ⊢
  all_goals simp_all

/-- Claim C8: within one scheduler process each (booking, offset)
reminder is dispatched at most once — a tick dispatches only when the
offset's flag is unset, sets the flag and its timestamp in one update
only after a successful dispatch, leaves the booking untouched on a
failed dispatch, and a second tick on the updated booking (in the same
window or any other) sends nothing further for that offset. -/
theorem reminder_dispatched_at_most_once
    (now offsetMillis halfWindow appointmentTime : Nat)
    (now2 off2 hw2 apptTime2 : Nat) (b : ReminderBooking) (dOk d2 : Bool) :
    ((checkAndSendForBooking now offsetMillis halfWindow appointmentTime
        b dOk).1 = true →
      b.reminderSent = false ∧ dOk = true ∧
      (checkAndSendForBooking now offsetMillis halfWindow appointmentTime
          b dOk).2 =
        { b with reminderSent := true, reminderSentAt := some now }) ∧
    checkAndSendForBooking now offsetMillis halfWindow appointmentTime
      b false = (false, b) ∧
    ((checkAndSendForBooking now offsetMillis halfWindow appointmentTime
        b dOk).1 = true →
      checkAndSendForBooking now2 off2 hw2 apptTime2
          (checkAndSendForBooking now offsetMillis halfWindow
            appointmentTime b dOk).2 d2 =
        (false,
          (checkAndSendForBooking now offsetMillis halfWindow
            appointmentTime b dOk).2)) := by
  refine ⟨checkAndSend_sent now offsetMillis halfWindow appointmentTime b dOk,
    checkAndSend_failed_dispatch now offsetMillis halfWindow appointmentTime b,
    fun h => ?_⟩
  have hs := checkAndSend_sent now offsetMillis halfWindow appointmentTime
    b dOk h
  exact checkAndSend_flag_already_set now2 off2 hw2 apptTime2 d2 _
    (by rw [hs.2.2])

/-- Witness for `reminder_dispatched_at_most_once`: a paid pending
booking starting 12h05m from the first tick gets its 12-hour reminder
dispatched once with the flag set, and a second tick one hour later
sends nothing further for that offset. -/
theorem reminder_dispatched_at_most_once_witness :
    checkAndSendForBooking 3600000 43200000 1800000 45000000
        { payment_status := "completed", status := "pending",
          reminderSent := false, reminderSentAt := none } true =
      (true, { payment_status := "completed", status := "pending",
               reminderSent := true, reminderSentAt := some 3600000 }) ∧
    checkAndSendForBooking 7200000 43200000 1800000 45000000
        { payment_status := "completed", status := "pending",
          reminderSent := true, reminderSentAt := some 3600000 } true =
      (false, { payment_status := "completed", status := "pending",
                reminderSent := true, reminderSentAt := some 3600000 }) :=
  ⟨by decide,
   (reminder_dispatched_at_most_once 3600000 43200000 1800000 45000000
      7200000 43200000 1800000 45000000
      { payment_status := "completed", status := "pending",
        reminderSent := false, reminderSentAt := none } true true).2.2
     (by decide)⟩

/-- The overlap re-scan distributes over store concatenation. -/
theorem slotConflicts_append (l1 l2 : List (String × Appointment))
    (ca : Option String) (d t : String) (dur : Nat) :
    slotConflicts (l1 ++ l2) ca d t dur =
      (slotConflicts l1 ca d t dur || slotConflicts l2 ca d t dur) := by
  simp [slotConflicts, List.any_append]

/-- An appointment that is not paid is invisible to the overlap
re-scan. -/
theorem slotConflicts_unpaid (k : String) (a : Appointment)
    (ca : Option String) (d t : String) (dur : Nat)
    (h : a.payment_status ≠ "completed") :
    slotConflicts [(k, a)] ca d t dur = false := by
  simp [slotConflicts, h]

/-- The `isSameCA` test always matches the consultant the request
itself named (`assigned_ca` of the booking the request created). -/
theorem isSameCA_self (ca : Option String) :
    isSameCA ca (ca.getD "") = true := by
  cases ca with
  | none => rfl
  | some c => by_cases hc : c = "" <;> simp [isSameCA, strFalsy, hc]

/-- Once the draft created from a request is paid, it blocks its own
slot in the overlap re-scan for the identical follow-up request. -/
theorem slotConflicts_self_paid (k : String) (r : CreateRequest)
    (price : Nat) (hdur : r.duration ≠ 0) :
    slotConflicts [(k, markPaid (draftOf r price))] r.ca_id r.date
      r.time_slot r.duration = true := by
  have h0 : 0 < r.duration := Nat.pos_of_ne_zero hdur
  simp [slotConflicts, markPaid, draftOf, isSameCA_self, hdur, h0]

/-- `find?` skips a prefix on which the predicate fails everywhere. -/
theorem find?_append_none {α : Type} (l1 l2 : List α) (p : α → Bool)
    (h : ∀ x ∈ l1, p x = false) :
    (l1 ++ l2).find? p = l2.find? p := by
  induction l1 with
  | nil => rfl
  | cons a l ih =>
    rw [List.cons_append,
      List.find?_cons_of_neg _ (by simp [h a (List.mem_cons_self a l)])]
    exact ih (fun x hx => h x (List.mem_cons_of_mem a hx))

/-- The payment-verification write-back leaves every appointment under
a different reference id untouched. -/
theorem map_replace_fresh (l : List (String × Appointment))
    (rid : String) (a : Appointment) (h : ∀ kv ∈ l, kv.1 ≠ rid) :
    (l.map fun kv => if kv.1 = rid then (kv.1, a) else kv) = l := by
  induction l with
  | nil => rfl
  | cons x l ih =>
    rw [List.map_cons, if_neg (h x (List.mem_cons_self x l)),
      ih (fun kv hkv => h kv (List.mem_cons_of_mem x hkv))]

/-- Claim C1 (counterexample): on an empty store, a first create for
the 10:00 slot succeeds and leaves a draft with
`payment_status = "pending"`; a second identical create issued before
any payment also succeeds and writes a second appointment — it does not
fail with `SlotUnavailable` as the claim requires. -/
theorem createBooking_second_draft_counterexample :
    (createBookingOrder findCANone sampleSettings sampleRequest
        emptyStore 2025).1 = CreateResult.ok "NAB_2025_0001" ∧
    ((createBookingOrder findCANone sampleSettings sampleRequest
        emptyStore 2025).2.appointments.map fun kv => kv.2.payment_status) =
      ["pending"] ∧
    (createBookingOrder findCANone sampleSettings sampleRequest
        (createBookingOrder findCANone sampleSettings sampleRequest
          emptyStore 2025).2 2025).1 = CreateResult.ok "NAB_2025_0002" ∧
    (createBookingOrder findCANone sampleSettings sampleRequest
        (createBookingOrder findCANone sampleSettings sampleRequest
          emptyStore 2025).2 2025).1 ≠ CreateResult.slotUnavailable ∧
    (createBookingOrder findCANone sampleSettings sampleRequest
        (createBookingOrder findCANone sampleSettings sampleRequest
          emptyStore 2025).2 2025).2.appointments.length = 2 := by
  refine ⟨rfl, rfl, rfl, by decide, rfl⟩

/-- Claim C1 (amended): no slot lock is ever taken and the overlap
re-scan sees only `payment_status = "completed"` bookings, so a second
create for the same date, time slot and consultant issued before the
first draft is paid succeeds as well; only once the first booking's
payment is verified does the identical create fail with
`SlotUnavailable` and perform no writes. -/
theorem createBooking_conflict_only_after_payment
    (findCA : String → Option CA) (settings : Settings)
    (r : CreateRequest) (store : BookingStore) (y : Int)
    (rid : String) (store1 : BookingStore)
    (hfresh : ∀ kv ∈ store.appointments, kv.1 ≠ rid)
    (h1 : createBookingOrder findCA settings r store y =
      (CreateResult.ok rid, store1)) :
    ((createBookingOrder findCA settings r store1 y).1 ≠
        CreateResult.slotUnavailable ∧
      ∃ rid2, (createBookingOrder findCA settings r store1 y).1 =
        CreateResult.ok rid2) ∧
    ∀ a store2,
      verifyBookingPaymentStore true store1 rid =
        (VerifyResult.ok a, store2) →
      createBookingOrder findCA settings r store2 y =
        (CreateResult.slotUnavailable, store2) := by
  unfold createBookingOrder at h1
  split_ifs at h1 with hmf hca hsc
  · simp at h1
  · simp at h1
  · simp at h1
  rcases hfind : settings.slot_durations.find?
      (fun s => s.duration = r.duration) with _ | cfg
  · rw [hfind] at h1; simp at h1
  rw [hfind] at h1
  dsimp only at h1
  rw [Prod.mk.injEq] at h1
  obtain ⟨hridok, hstoreeq⟩ := h1
  have hdur : r.duration ≠ 0 := by
    intro h0
    exact hmf (by simp [h0])
  have hrid : (generateReferenceId store.countersDoc y).1 = rid := by
    simpa using hridok
  have hstore1 : store1 =
      { appointments := store.appointments ++ [(rid, draftOf r cfg.price)]
        countersDoc := some (generateReferenceId store.countersDoc y).2 } := by
    rw [← hstoreeq, hrid]
  have hsc0 : slotConflicts store.appointments r.ca_id r.date r.time_slot
      r.duration = false := by
    simpa using hsc
  have hconf1 : slotConflicts store1.appointments r.ca_id r.date
      r.time_slot r.duration = false := by
    rw [hstore1]
    show slotConflicts (store.appointments ++ [(rid, draftOf r cfg.price)])
      r.ca_id r.date r.time_slot r.duration = false
    rw [slotConflicts_append, hsc0,
      slotConflicts_unpaid _ _ _ _ _ _ (by simp [draftOf])]
    rfl
  constructor
  · have hsecond : createBookingOrder findCA settings r store1 y =
        (CreateResult.ok (generateReferenceId store1.countersDoc y).1,
         { appointments := store1.appointments ++
             [((generateReferenceId store1.countersDoc y).1,
               draftOf r cfg.price)]
           countersDoc := some (generateReferenceId store1.countersDoc y).2 }) := by
      unfold createBookingOrder
      rw [if_neg hmf, if_neg hca, if_neg (by simp [hconf1]), hfind]
    rw [hsecond]
    exact ⟨by simp, ⟨_, rfl⟩⟩
  · intro a store2 hv
    have hfind1 : store1.appointments.find? (fun kv => kv.1 = rid) =
        some (rid, draftOf r cfg.price) := by
      rw [hstore1]
      show ((store.appointments ++ [(rid, draftOf r cfg.price)]).find?
        fun kv => kv.1 = rid) = _
      rw [find?_append_none _ _ _
        (fun kv hkv => by simp [hfresh kv hkv])]
      simp [List.find?]
    unfold verifyBookingPaymentStore at hv
    rw [hfind1] at hv
    have hvb : verifyBookingPayment true (some (draftOf r cfg.price)) =
        VerifyResult.ok (markPaid (draftOf r cfg.price)) := rfl
    rw [Option.map_some', hvb] at hv
    dsimp only at hv
    rw [Prod.mk.injEq] at hv
    obtain ⟨hva, hvs⟩ := hv
    have hstore2 : store2 =
        { store1 with appointments := store1.appointments.map fun kv =>
            if kv.1 = rid then (kv.1, markPaid (draftOf r cfg.price))
            else kv } := hvs.symm
    have hstore2app : store2.appointments =
        store.appointments ++ [(rid, markPaid (draftOf r cfg.price))] := by
      rw [hstore2]
      show (store1.appointments.map fun kv =>
        if kv.1 = rid then (kv.1, markPaid (draftOf r cfg.price)) else kv) = _
      rw [hstore1]
      show ((store.appointments ++ [(rid, draftOf r cfg.price)]).map
        fun kv => if kv.1 = rid then (kv.1, markPaid (draftOf r cfg.price))
          else kv) = _
      rw [List.map_append, map_replace_fresh _ _ _ hfresh]
      simp
    have hconf2 : slotConflicts store2.appointments r.ca_id r.date
        r.time_slot r.duration = true := by
      rw [hstore2app, slotConflicts_append,
        slotConflicts_self_paid _ _ _ hdur, Bool.or_true]
    unfold createBookingOrder
    rw [if_neg hmf, if_neg hca, if_pos (by simp [hconf2])]

/-- Witness for `createBooking_conflict_only_after_payment`: the
concrete empty-store scenario — after the first create, the identical
second create does not fail with `SlotUnavailable`. -/
theorem createBooking_conflict_only_after_payment_witness :
    (createBookingOrder findCANone sampleSettings sampleRequest
        (createBookingOrder findCANone sampleSettings sampleRequest
          emptyStore 2025).2 2025).1 ≠ CreateResult.slotUnavailable :=
  (createBooking_conflict_only_after_payment findCANone sampleSettings
    sampleRequest emptyStore 2025 "NAB_2025_0001"
    (createBookingOrder findCANone sampleSettings sampleRequest
      emptyStore 2025).2
    (by intro kv hkv; simp [emptyStore] at hkv) (by rfl)).1.1

end NAB
